import Mathlib

/-!
# Verification of the HIPE feature-extraction pipeline

A shallow embedding of the three source files of the `hipe-features`
repository (`src/main.py`, `src/config.py`, `src/custom_features.py`)
together with proofs and refutations of the specified properties.

Timestamps are fixed-width strings `YYYY-MM-DDTHH:MM:SS.mmm+HH`; the code
manipulates them purely by positional string slicing, so they are embedded
as `List Char` and Python slices become `List.take` / `List.drop`.
Numeric sensor readings are embedded as `ℚ` (the Python floats involved in
the properties below are small decimal literals, exactly representable).
Python exceptions are embedded as `Except` / dedicated `raise`
constructors, and the float `NaN` sentinel as a dedicated `nan`
constructor.
-/

/-! ## Timestamp window assignment (`src/main.py`, `calc_aggregation_datetime`)

Python's `int` on a two-or-three digit substring, and the `f'{v:02d}'`
formatting used to rebuild the minute field, are modelled on digit
characters only, which is all the source ever feeds them.
-/

/-- Value of a decimal digit character. -/
def dval (c : Char) : ℕ := c.toNat - 48

/-- Python `int(s)` on a (non-empty, all-digit, non-negative) string. -/
def pyInt (s : List Char) : ℕ := s.foldl (fun n c => 10 * n + dval c) 0

/-- The decimal digit character for `n ≤ 9` (the only inputs that occur). -/
def digitChar : ℕ → Char
  | 0 => '0' | 1 => '1' | 2 => '2' | 3 => '3' | 4 => '4'
  | 5 => '5' | 6 => '6' | 7 => '7' | 8 => '8' | _ => '9'

/-- Python `f'{v:02d}'` for `v < 100`: two-digit zero-padded rendering. -/
def twoDigits (v : ℕ) : List Char := [digitChar (v / 10), digitChar (v % 10)]

/-- Python `x[-3:]` (the UTC-offset suffix of a timestamp). -/
def lastThree (x : List Char) : List Char := x.drop (x.length - 3)

/-- `config.py`: `DATE_CHANGE_WINTER = '2017-10-29T00:00:00.000+02'`. -/
def DATE_CHANGE_WINTER : List Char := "2017-10-29T00:00:00.000+02".toList

/-- `'minute'` branch: `x[:16] + ':00.000' + x[-3:]`. -/
def aggMinute (x : List Char) : List Char :=
  x.take 16 ++ ":00.000".toList ++ lastThree x

/-- `'10minutes'` branch: `x[:15] + '0:00.000' + x[-3:]`. -/
def agg10Minutes (x : List Char) : List Char :=
  x.take 15 ++ "0:00.000".toList ++ lastThree x

/-- `'15minutes'` branch:
`x[:14] + f'{int(x[14:16]) // 15 * 15:02d}:00.000' + x[-3:]`. -/
def agg15Minutes (x : List Char) : List Char :=
  x.take 14 ++ twoDigits (pyInt ((x.drop 14).take 2) / 15 * 15) ++
    ":00.000".toList ++ lastThree x

/-- `'1hour'` branch: `x[:13] + ':00:00.000' + x[-3:]`. -/
def agg1Hour (x : List Char) : List Char :=
  x.take 13 ++ ":00:00.000".toList ++ lastThree x

/-- `'1day'` branch before the DST fix-up: `x[:11] + '00:00:00.000' + x[-3:]`. -/
def agg1DayRaw (x : List Char) : List Char :=
  x.take 11 ++ "00:00:00.000".toList ++ lastThree x

/-- The element-wise effect of
`result.replace({DATE_CHANGE_WINTER[:-1] + '1': DATE_CHANGE_WINTER})`
(pandas `Series.replace` substitutes exactly-matching elements). -/
def replaceWinter (y : List Char) : List Char :=
  if y = DATE_CHANGE_WINTER.dropLast ++ ['1'] then DATE_CHANGE_WINTER else y

/-- `'1day'` branch including the DST fix-up. -/
def agg1Day (x : List Char) : List Char := replaceWinter (agg1DayRaw x)

/-- `main.py`, `calc_aggregation_datetime(datetimes, aggregation)`: maps the
window-start computation over a series of timestamps; an unsupported
aggregation level raises `NotImplementedError` (the spec's
ConfigurationError), embedded as `Except.error` carrying the message. -/
def calc_aggregation_datetime (datetimes : List (List Char)) (aggregation : String) :
    Except String (List (List Char)) :=
  if aggregation = "minute" then .ok (datetimes.map aggMinute)
  else if aggregation = "10minutes" then .ok (datetimes.map agg10Minutes)
  else if aggregation = "15minutes" then .ok (datetimes.map agg15Minutes)
  else if aggregation = "1hour" then .ok (datetimes.map agg1Hour)
  else if aggregation = "1day" then .ok ((datetimes.map agg1DayRaw).map replaceWinter)
  else .error ("Unsupported aggregation level '" ++ aggregation ++ "'.")

/-- The five supported granularities (spec names
minute, 10-minutes, 15-minutes, 1-hour, 1-day). -/
inductive Granularity
  | minute | tenMinutes | fifteenMinutes | oneHour | oneDay
deriving DecidableEq

/-- The aggregation-level string `main.py` uses for each granularity. -/
def Granularity.aggName : Granularity → String
  | .minute => "minute"
  | .tenMinutes => "10minutes"
  | .fifteenMinutes => "15minutes"
  | .oneHour => "1hour"
  | .oneDay => "1day"

/-- The window identifier assigned to one timestamp at one granularity
(the per-element semantics of `calc_aggregation_datetime`). -/
def assignWindow (g : Granularity) (x : List Char) : List Char :=
  match g with
  | .minute => aggMinute x
  | .tenMinutes => agg10Minutes x
  | .fifteenMinutes => agg15Minutes x
  | .oneHour => agg1Hour x
  | .oneDay => agg1Day x

/-- `calc_aggregation_datetime` at a supported aggregation level is exactly
`assignWindow` mapped over the series. -/
theorem calc_aggregation_datetime_eq_map (g : Granularity) (datetimes : List (List Char)) :
    calc_aggregation_datetime datetimes g.aggName = .ok (datetimes.map (assignWindow g)) := by
  cases g <;>
    simp [calc_aggregation_datetime, Granularity.aggName, assignWindow, agg1Day, List.map_map]

/-! ## Valid fixed-width timestamps

The spec's input contract: pattern `YYYY-MM-DDTHH:MM:SS.mmm±HH`
(explicit numeric UTC offset), with the calendar/clock fields in range.
-/

/-- The character is a decimal digit. -/
def IsDigit (c : Char) : Prop := '0' ≤ c ∧ c ≤ '9'

instance (c : Char) : Decidable (IsDigit c) := by unfold IsDigit; infer_instance

/-- Field value helpers, reading the fixed positions of a timestamp. -/
def yearVal (x : List Char) : ℕ := pyInt (x.take 4)

def monthVal (x : List Char) : ℕ := pyInt ((x.drop 5).take 2)

def dayVal (x : List Char) : ℕ := pyInt ((x.drop 8).take 2)

def hourVal (x : List Char) : ℕ := pyInt ((x.drop 11).take 2)

def minuteVal (x : List Char) : ℕ := pyInt ((x.drop 14).take 2)

def secVal (x : List Char) : ℕ := pyInt ((x.drop 17).take 2)

def msVal (x : List Char) : ℕ := pyInt ((x.drop 20).take 3)

def offSign (x : List Char) : Char := x.getD 23 ' '

def offHH (x : List Char) : ℕ := pyInt ((x.drop 24).take 2)

/-- The timestamp is a well-formed fixed-width `YYYY-MM-DDTHH:MM:SS.mmm±HH`
string with in-range fields. -/
def ValidTS (x : List Char) : Prop :=
  x.length = 26 ∧
  IsDigit (x.getD 0 ' ') ∧ IsDigit (x.getD 1 ' ') ∧
  IsDigit (x.getD 2 ' ') ∧ IsDigit (x.getD 3 ' ') ∧
  x.getD 4 ' ' = '-' ∧
  IsDigit (x.getD 5 ' ') ∧ IsDigit (x.getD 6 ' ') ∧
  x.getD 7 ' ' = '-' ∧
  IsDigit (x.getD 8 ' ') ∧ IsDigit (x.getD 9 ' ') ∧
  x.getD 10 ' ' = 'T' ∧
  IsDigit (x.getD 11 ' ') ∧ IsDigit (x.getD 12 ' ') ∧
  x.getD 13 ' ' = ':' ∧
  IsDigit (x.getD 14 ' ') ∧ IsDigit (x.getD 15 ' ') ∧
  x.getD 16 ' ' = ':' ∧
  IsDigit (x.getD 17 ' ') ∧ IsDigit (x.getD 18 ' ') ∧
  x.getD 19 ' ' = '.' ∧
  IsDigit (x.getD 20 ' ') ∧ IsDigit (x.getD 21 ' ') ∧ IsDigit (x.getD 22 ' ') ∧
  (x.getD 23 ' ' = '+' ∨ x.getD 23 ' ' = '-') ∧
  IsDigit (x.getD 24 ' ') ∧ IsDigit (x.getD 25 ' ') ∧
  1 ≤ monthVal x ∧ monthVal x ≤ 12 ∧
  1 ≤ dayVal x ∧ dayVal x ≤ 31 ∧
  hourVal x ≤ 23 ∧ minuteVal x ≤ 59 ∧ secVal x ≤ 59

instance (x : List Char) : Decidable (ValidTS x) := by unfold ValidTS; infer_instance

/-! ## Helper lemmas: characters, digits, exploding a 26-character list -/

/-- Character order is code-point order (as in Python string comparison). -/
theorem char_le_iff {a b : Char} : a ≤ b ↔ a.toNat ≤ b.toNat := Iff.rfl

/-- Character strict order is code-point order. -/
theorem char_lt_iff {a b : Char} : a < b ↔ a.toNat < b.toNat := Iff.rfl

/-- A digit character has code point between 48 and 57. -/
theorem isDigit_bounds {c : Char} (h : IsDigit c) : 48 ≤ c.toNat ∧ c.toNat ≤ 57 :=
  ⟨char_le_iff.mp h.1, char_le_iff.mp h.2⟩

/-- Code point of digitChar for digits. -/
theorem digitChar_toNat : ∀ a, a < 10 → (digitChar a).toNat = 48 + a := by decide

/-- digitChar yields digit characters for digits. -/
theorem digitChar_isDigit : ∀ a, a < 10 → IsDigit (digitChar a) := by decide

/-- digitChar is strictly monotone on digits. -/
theorem digitChar_lt_iff : ∀ a, a < 10 → ∀ b, b < 10 → (digitChar a < digitChar b ↔ a < b) := by decide

/-- Any 26-character list is an explicit 26-tuple of characters. -/
theorem explode26 (x : List Char) (h : x.length = 26) :
    ∃ c0 c1 c2 c3 c4 c5 c6 c7 c8 c9 c10 c11 c12 c13 c14 c15 c16 c17 c18 c19 c20 c21 c22 c23 c24 c25 : Char,
      x = [c0, c1, c2, c3, c4, c5, c6, c7, c8, c9, c10, c11, c12, c13, c14, c15, c16, c17, c18, c19, c20, c21, c22, c23, c24, c25] := by
  replace h : x.length = 25 + 1 := by omega
  obtain ⟨c0, x, rfl⟩ := List.exists_of_length_succ x h
  replace h : x.length = 24 + 1 := by simp only [List.length_cons] at h; omega
  obtain ⟨c1, x, rfl⟩ := List.exists_of_length_succ x h
  replace h : x.length = 23 + 1 := by simp only [List.length_cons] at h; omega
  obtain ⟨c2, x, rfl⟩ := List.exists_of_length_succ x h
  replace h : x.length = 22 + 1 := by simp only [List.length_cons] at h; omega
  obtain ⟨c3, x, rfl⟩ := List.exists_of_length_succ x h
  replace h : x.length = 21 + 1 := by simp only [List.length_cons] at h; omega
  obtain ⟨c4, x, rfl⟩ := List.exists_of_length_succ x h
  replace h : x.length = 20 + 1 := by simp only [List.length_cons] at h; omega
  obtain ⟨c5, x, rfl⟩ := List.exists_of_length_succ x h
  replace h : x.length = 19 + 1 := by simp only [List.length_cons] at h; omega
  obtain ⟨c6, x, rfl⟩ := List.exists_of_length_succ x h
  replace h : x.length = 18 + 1 := by simp only [List.length_cons] at h; omega
  obtain ⟨c7, x, rfl⟩ := List.exists_of_length_succ x h
  replace h : x.length = 17 + 1 := by simp only [List.length_cons] at h; omega
  obtain ⟨c8, x, rfl⟩ := List.exists_of_length_succ x h
  replace h : x.length = 16 + 1 := by simp only [List.length_cons] at h; omega
  obtain ⟨c9, x, rfl⟩ := List.exists_of_length_succ x h
  replace h : x.length = 15 + 1 := by simp only [List.length_cons] at h; omega
  obtain ⟨c10, x, rfl⟩ := List.exists_of_length_succ x h
  replace h : x.length = 14 + 1 := by simp only [List.length_cons] at h; omega
  obtain ⟨c11, x, rfl⟩ := List.exists_of_length_succ x h
  replace h : x.length = 13 + 1 := by simp only [List.length_cons] at h; omega
  obtain ⟨c12, x, rfl⟩ := List.exists_of_length_succ x h
  replace h : x.length = 12 + 1 := by simp only [List.length_cons] at h; omega
  obtain ⟨c13, x, rfl⟩ := List.exists_of_length_succ x h
  replace h : x.length = 11 + 1 := by simp only [List.length_cons] at h; omega
  obtain ⟨c14, x, rfl⟩ := List.exists_of_length_succ x h
  replace h : x.length = 10 + 1 := by simp only [List.length_cons] at h; omega
  obtain ⟨c15, x, rfl⟩ := List.exists_of_length_succ x h
  replace h : x.length = 9 + 1 := by simp only [List.length_cons] at h; omega
  obtain ⟨c16, x, rfl⟩ := List.exists_of_length_succ x h
  replace h : x.length = 8 + 1 := by simp only [List.length_cons] at h; omega
  obtain ⟨c17, x, rfl⟩ := List.exists_of_length_succ x h
  replace h : x.length = 7 + 1 := by simp only [List.length_cons] at h; omega
  obtain ⟨c18, x, rfl⟩ := List.exists_of_length_succ x h
  replace h : x.length = 6 + 1 := by simp only [List.length_cons] at h; omega
  obtain ⟨c19, x, rfl⟩ := List.exists_of_length_succ x h
  replace h : x.length = 5 + 1 := by simp only [List.length_cons] at h; omega
  obtain ⟨c20, x, rfl⟩ := List.exists_of_length_succ x h
  replace h : x.length = 4 + 1 := by simp only [List.length_cons] at h; omega
  obtain ⟨c21, x, rfl⟩ := List.exists_of_length_succ x h
  replace h : x.length = 3 + 1 := by simp only [List.length_cons] at h; omega
  obtain ⟨c22, x, rfl⟩ := List.exists_of_length_succ x h
  replace h : x.length = 2 + 1 := by simp only [List.length_cons] at h; omega
  obtain ⟨c23, x, rfl⟩ := List.exists_of_length_succ x h
  replace h : x.length = 1 + 1 := by simp only [List.length_cons] at h; omega
  obtain ⟨c24, x, rfl⟩ := List.exists_of_length_succ x h
  replace h : x.length = 0 + 1 := by simp only [List.length_cons] at h; omega
  obtain ⟨c25, x, rfl⟩ := List.exists_of_length_succ x h
  replace h : x.length = 0 := by simp only [List.length_cons] at h; omega
  rw [List.length_eq_zero] at h
  subst h
  exact ⟨c0, c1, c2, c3, c4, c5, c6, c7, c8, c9, c10, c11, c12, c13, c14, c15, c16, c17, c18, c19, c20, c21, c22, c23, c24, c25, rfl⟩

/-! ## C7: unsupported granularity -/

/-- C7: for every aggregation-level string outside the supported set
{minute, 10minutes, 15minutes, 1hour, 1day} and every input timestamp
series, `calc_aggregation_datetime` fails with the unsupported-aggregation
error (the spec's ConfigurationError) and produces no window identifiers. -/
theorem c7_unsupported_granularity_raises (aggregation : String)
    (datetimes : List (List Char))
    (h : aggregation ∉ ["minute", "10minutes", "15minutes", "1hour", "1day"]) :
    calc_aggregation_datetime datetimes aggregation =
      .error ("Unsupported aggregation level '" ++ aggregation ++ "'.") := by
  simp only [List.mem_cons, List.mem_singleton, not_or] at h
  obtain ⟨h1, h2, h3, h4, h5, -⟩ := h
  simp [calc_aggregation_datetime, h1, h2, h3, h4, h5]

/-- Witness for C7 at the concrete unsupported level "weekly". -/
theorem c7_unsupported_granularity_raises_witness :
    "weekly" ∉ ["minute", "10minutes", "15minutes", "1hour", "1day"] ∧
    calc_aggregation_datetime ["2017-10-01T00:07:23.500+02".toList] "weekly" =
      .error "Unsupported aggregation level 'weekly'." :=
  ⟨by decide,
   c7_unsupported_granularity_raises "weekly" ["2017-10-01T00:07:23.500+02".toList]
     (by decide)⟩

/-! ## C6: the 15-minutes granularity -/

/-- C6: at 15-minutes granularity the assigner floors the minute field to
the nearest lower multiple of 15 and zeroes the seconds and milliseconds,
leaving date, hour (the whole 14-character prefix) and UTC offset
unchanged; in particular `2017-10-01T00:07:23.500+02` maps to
`2017-10-01T00:00:00.000+02` and `2017-10-01T00:17:00.000+02` maps to
`2017-10-01T00:15:00.000+02`. -/
theorem c6_fifteen_minutes_floors (x : List Char) (h : ValidTS x) :
    (assignWindow .fifteenMinutes x).take 14 = x.take 14 ∧
    minuteVal (assignWindow .fifteenMinutes x) = minuteVal x / 15 * 15 ∧
    secVal (assignWindow .fifteenMinutes x) = 0 ∧
    msVal (assignWindow .fifteenMinutes x) = 0 ∧
    lastThree (assignWindow .fifteenMinutes x) = lastThree x ∧
    assignWindow .fifteenMinutes "2017-10-01T00:07:23.500+02".toList =
      "2017-10-01T00:00:00.000+02".toList ∧
    assignWindow .fifteenMinutes "2017-10-01T00:17:00.000+02".toList =
      "2017-10-01T00:15:00.000+02".toList := by
  obtain ⟨c0, c1, c2, c3, c4, c5, c6, c7, c8, c9, c10, c11, c12, c13, c14, c15,
    c16, c17, c18, c19, c20, c21, c22, c23, c24, c25, rfl⟩ := explode26 x h.1
  obtain ⟨-, -, -, -, -, -, -, -, -, -, -, -, -, -, -, hd14, hd15, -⟩ := h
  have h14 : IsDigit c14 := hd14
  have h15 : IsDigit c15 := hd15
  have hb14 := isDigit_bounds h14
  have hb15 := isDigit_bounds h15
  have hmv : minuteVal [c0, c1, c2, c3, c4, c5, c6, c7, c8, c9, c10, c11, c12, c13,
      c14, c15, c16, c17, c18, c19, c20, c21, c22, c23, c24, c25] =
      10 * (10 * 0 + dval c14) + dval c15 := rfl
  have hmv99 : minuteVal [c0, c1, c2, c3, c4, c5, c6, c7, c8, c9, c10, c11, c12, c13,
      c14, c15, c16, c17, c18, c19, c20, c21, c22, c23, c24, c25] ≤ 99 := by
    rw [hmv]; unfold dval; omega
  refine ⟨rfl, ?_, rfl, rfl, rfl, by decide, by decide⟩
  set mv := minuteVal [c0, c1, c2, c3, c4, c5, c6, c7, c8, c9, c10, c11, c12, c13,
    c14, c15, c16, c17, c18, c19, c20, c21, c22, c23, c24, c25] with hmvdef
  have hq : mv / 15 * 15 ≤ 90 := by omega
  have e1 : dval (digitChar (mv / 15 * 15 / 10)) = mv / 15 * 15 / 10 := by
    unfold dval; rw [digitChar_toNat _ (by omega)]; omega
  have e2 : dval (digitChar (mv / 15 * 15 % 10)) = mv / 15 * 15 % 10 := by
    unfold dval; rw [digitChar_toNat _ (by omega)]; omega
  have : minuteVal (assignWindow .fifteenMinutes [c0, c1, c2, c3, c4, c5, c6, c7, c8,
      c9, c10, c11, c12, c13, c14, c15, c16, c17, c18, c19, c20, c21, c22, c23, c24, c25]) =
      10 * (10 * 0 + dval (digitChar (mv / 15 * 15 / 10))) +
        dval (digitChar (mv / 15 * 15 % 10)) := rfl
  rw [this, e1, e2]
  omega

/-- Witness for C6 at the concrete timestamp `2017-10-01T00:17:00.000+02`. -/
theorem c6_fifteen_minutes_floors_witness :
    ValidTS "2017-10-01T00:17:00.000+02".toList ∧
    minuteVal (assignWindow .fifteenMinutes "2017-10-01T00:17:00.000+02".toList) =
      minuteVal "2017-10-01T00:17:00.000+02".toList / 15 * 15 :=
  ⟨by decide, (c6_fifteen_minutes_floors "2017-10-01T00:17:00.000+02".toList
    (by decide)).2.1⟩

/-! ## Arithmetic helpers for the two-digit minute field -/

/-- Reparsing a rendered digit gives back the digit. -/
theorem dval_digitChar (a : ℕ) (h : a < 10) : dval (digitChar a) = a := by
  unfold dval; rw [digitChar_toNat a h]; omega

/-- `pyInt` on a two-character string. -/
theorem pyInt_two (a b : Char) : pyInt [a, b] = 10 * dval a + dval b := by
  have h : pyInt [a, b] = 10 * (10 * 0 + dval a) + dval b := rfl
  omega

/-- Reparsing the two-digit rendering of `q < 100` gives back `q`. -/
theorem pyInt_twoDigits (q : ℕ) (h : q < 100) : pyInt (twoDigits q) = q := by
  have e : pyInt (twoDigits q) = 10 * dval (digitChar (q / 10)) + dval (digitChar (q % 10)) :=
    pyInt_two _ _
  rw [dval_digitChar _ (by omega), dval_digitChar _ (by omega)] at e
  omega

/-- A digit character contributes at most 9. -/
theorem dval_le_nine {c : Char} (h : IsDigit c) : dval c ≤ 9 := by
  have hb := isDigit_bounds h
  unfold dval; omega

/-! ## C5: idempotence of window assignment -/

/-- C5: for every supported granularity and every valid fixed-width
timestamp, window assignment is idempotent:
`assignWindow g (assignWindow g x) = assignWindow g x`. -/
theorem c5_assign_window_idempotent (g : Granularity) (x : List Char) (h : ValidTS x) :
    assignWindow g (assignWindow g x) = assignWindow g x := by
  obtain ⟨c0, c1, c2, c3, c4, c5, c6, c7, c8, c9, c10, c11, c12, c13, c14, c15, c16, c17, c18, c19, c20, c21, c22, c23, c24, c25, rfl⟩ := explode26 x h.1
  obtain ⟨-, -, -, -, -, -, -, -, -, -, -, -, -, -, -, hd14, hd15, -⟩ := h
  have h14 : IsDigit c14 := hd14
  have h15 : IsDigit c15 := hd15
  cases g
  case minute => rfl
  case tenMinutes => rfl
  case oneHour => rfl
  case fifteenMinutes =>
    have e1 : assignWindow .fifteenMinutes [c0, c1, c2, c3, c4, c5, c6, c7, c8, c9, c10, c11, c12, c13, c14, c15, c16, c17, c18, c19, c20, c21, c22, c23, c24, c25] =
        [c0, c1, c2, c3, c4, c5, c6, c7, c8, c9, c10, c11, c12, c13] ++ twoDigits (pyInt [c14, c15] / 15 * 15) ++ ":00.000".toList ++ [c23, c24, c25] := rfl
    rw [e1]
    have hmv : pyInt [c14, c15] ≤ 99 := by
      rw [pyInt_two]
      have := dval_le_nine h14
      have := dval_le_nine h15
      omega
    have hq90 : pyInt [c14, c15] / 15 * 15 ≤ 90 := by omega
    have e2 : assignWindow .fifteenMinutes
        ([c0, c1, c2, c3, c4, c5, c6, c7, c8, c9, c10, c11, c12, c13] ++ twoDigits (pyInt [c14, c15] / 15 * 15) ++ ":00.000".toList ++ [c23, c24, c25]) =
        [c0, c1, c2, c3, c4, c5, c6, c7, c8, c9, c10, c11, c12, c13] ++ twoDigits (pyInt (twoDigits (pyInt [c14, c15] / 15 * 15)) / 15 * 15) ++
          ":00.000".toList ++ [c23, c24, c25] := rfl
    rw [e2, pyInt_twoDigits _ (by omega)]
    have e3 : pyInt [c14, c15] / 15 * 15 / 15 * 15 = pyInt [c14, c15] / 15 * 15 := by omega
    rw [e3]
  case oneDay =>
    show agg1Day (agg1Day [c0, c1, c2, c3, c4, c5, c6, c7, c8, c9, c10, c11, c12, c13, c14, c15, c16, c17, c18, c19, c20, c21, c22, c23, c24, c25]) = agg1Day [c0, c1, c2, c3, c4, c5, c6, c7, c8, c9, c10, c11, c12, c13, c14, c15, c16, c17, c18, c19, c20, c21, c22, c23, c24, c25]
    unfold agg1Day
    by_cases hr : agg1DayRaw [c0, c1, c2, c3, c4, c5, c6, c7, c8, c9, c10, c11, c12, c13, c14, c15, c16, c17, c18, c19, c20, c21, c22, c23, c24, c25] = DATE_CHANGE_WINTER.dropLast ++ ['1']
    · have h1 : replaceWinter (agg1DayRaw [c0, c1, c2, c3, c4, c5, c6, c7, c8, c9, c10, c11, c12, c13, c14, c15, c16, c17, c18, c19, c20, c21, c22, c23, c24, c25]) = DATE_CHANGE_WINTER := by
        simp only [replaceWinter]; rw [if_pos hr]
      rw [h1]
      decide
    · have h1 : replaceWinter (agg1DayRaw [c0, c1, c2, c3, c4, c5, c6, c7, c8, c9, c10, c11, c12, c13, c14, c15, c16, c17, c18, c19, c20, c21, c22, c23, c24, c25]) = agg1DayRaw [c0, c1, c2, c3, c4, c5, c6, c7, c8, c9, c10, c11, c12, c13, c14, c15, c16, c17, c18, c19, c20, c21, c22, c23, c24, c25] := by
        simp only [replaceWinter]; rw [if_neg hr]
      rw [h1]
      have h2 : agg1DayRaw (agg1DayRaw [c0, c1, c2, c3, c4, c5, c6, c7, c8, c9, c10, c11, c12, c13, c14, c15, c16, c17, c18, c19, c20, c21, c22, c23, c24, c25]) = agg1DayRaw [c0, c1, c2, c3, c4, c5, c6, c7, c8, c9, c10, c11, c12, c13, c14, c15, c16, c17, c18, c19, c20, c21, c22, c23, c24, c25] := rfl
      rw [h2]
      exact h1

/-- Witness for C5 at 15-minutes granularity on `2017-10-01T00:17:00.000+02`. -/
theorem c5_assign_window_idempotent_witness :
    ValidTS "2017-10-01T00:17:00.000+02".toList ∧
    assignWindow .fifteenMinutes (assignWindow .fifteenMinutes
        "2017-10-01T00:17:00.000+02".toList) =
      assignWindow .fifteenMinutes "2017-10-01T00:17:00.000+02".toList :=
  ⟨by decide, c5_assign_window_idempotent .fifteenMinutes
    "2017-10-01T00:17:00.000+02".toList (by decide)⟩

/-! ## C4: the daylight-saving transition day at 1-day granularity -/

/-- C4: at 1-day granularity, every valid timestamp on the DST transition
date 2017-10-29 — whether its UTC-offset suffix is the pre-transition
`+02` or the post-transition `+01` — maps to the single window identifier
`2017-10-29T00:00:00.000+02` (the pre-transition offset). -/
theorem c4_dst_day_single_window (x : List Char) (h : ValidTS x)
    (hdate : x.take 10 = "2017-10-29".toList)
    (hoff : lastThree x = "+01".toList ∨ lastThree x = "+02".toList) :
    assignWindow .oneDay x = DATE_CHANGE_WINTER := by
  obtain ⟨c0, c1, c2, c3, c4, c5, c6, c7, c8, c9, c10, c11, c12, c13, c14, c15, c16, c17, c18, c19, c20, c21, c22, c23, c24, c25, rfl⟩ := explode26 x h.1
  obtain ⟨-, -, -, -, -, -, -, -, -, -, -, h10, -⟩ := h
  have h10T : c10 = 'T' := h10
  subst h10T
  simp only [List.take, String.toList, List.cons.injEq, and_true] at hdate
  obtain ⟨rfl, rfl, rfl, rfl, rfl, rfl, rfl, rfl, rfl, rfl⟩ := hdate
  rcases hoff with hoff | hoff
  · simp only [lastThree, String.toList, List.cons.injEq, and_true] at hoff
    obtain ⟨rfl, rfl, rfl⟩ := hoff
    show replaceWinter (agg1DayRaw ['2', '0', '1', '7', '-', '1', '0', '-', '2', '9', 'T', c11, c12, c13, c14, c15, c16, c17, c18, c19, c20, c21, c22, '+', '0', '1']) = DATE_CHANGE_WINTER
    rw [show agg1DayRaw ['2', '0', '1', '7', '-', '1', '0', '-', '2', '9', 'T', c11, c12, c13, c14, c15, c16, c17, c18, c19, c20, c21, c22, '+', '0', '1'] = DATE_CHANGE_WINTER.dropLast ++ ['1'] from rfl]
    decide
  · simp only [lastThree, String.toList, List.cons.injEq, and_true] at hoff
    obtain ⟨rfl, rfl, rfl⟩ := hoff
    show replaceWinter (agg1DayRaw ['2', '0', '1', '7', '-', '1', '0', '-', '2', '9', 'T', c11, c12, c13, c14, c15, c16, c17, c18, c19, c20, c21, c22, '+', '0', '2']) = DATE_CHANGE_WINTER
    rw [show agg1DayRaw ['2', '0', '1', '7', '-', '1', '0', '-', '2', '9', 'T', c11, c12, c13, c14, c15, c16, c17, c18, c19, c20, c21, c22, '+', '0', '2'] = DATE_CHANGE_WINTER from rfl]
    decide

/-- Witness for C4 on the post-transition timestamp
`2017-10-29T12:34:56.789+01`. -/
theorem c4_dst_day_single_window_witness :
    ValidTS "2017-10-29T12:34:56.789+01".toList ∧
    assignWindow .oneDay "2017-10-29T12:34:56.789+01".toList = DATE_CHANGE_WINTER :=
  ⟨by decide, c4_dst_day_single_window "2017-10-29T12:34:56.789+01".toList
    (by decide) (by decide) (Or.inl (by decide))⟩

/-! ## C10: window identifiers are well-formed timestamps -/

/-- C10: for every valid fixed-width timestamp and every supported
granularity, the assigned window identifier is itself a well-formed
fixed-width timestamp of the same pattern, its seconds and milliseconds
fields are zero, and its date portion and UTC-offset suffix equal those of
the input — except that at 1-day granularity a `+01`-suffixed timestamp on
the DST date 2017-10-29 gets its offset normalised to `+02`. -/
theorem c10_window_identifier_invariants (g : Granularity) (x : List Char) (h : ValidTS x) :
    ValidTS (assignWindow g x) ∧
    secVal (assignWindow g x) = 0 ∧
    msVal (assignWindow g x) = 0 ∧
    (assignWindow g x).take 10 = x.take 10 ∧
    (lastThree (assignWindow g x) = lastThree x ∨
      (g = .oneDay ∧ x.take 10 = "2017-10-29".toList ∧ lastThree x = "+01".toList ∧
        lastThree (assignWindow g x) = "+02".toList)) := by
  obtain ⟨c0, c1, c2, c3, c4, c5, c6, c7, c8, c9, c10, c11, c12, c13, c14, c15, c16, c17, c18, c19, c20, c21, c22, c23, c24, c25, rfl⟩ := explode26 x h.1
  obtain ⟨hlen, p0, p1, p2, p3, p4, p5, p6, p7, p8, p9, p10, p11, p12, p13, p14, p15, p16, p17, p18, p19, p20, p21, p22, p23, p24, p25, hm1, hm2, hd1, hd2, hhh, hmi, hss⟩ := h
  have dz : IsDigit '0' := by decide
  have z59 : (0 : ℕ) ≤ 59 := by decide
  cases g
  case minute =>
    exact ⟨⟨rfl, p0, p1, p2, p3, p4, p5, p6, p7, p8, p9, p10, p11, p12, p13, p14, p15,
      rfl, dz, dz, rfl, dz, dz, dz, p23, p24, p25, hm1, hm2, hd1, hd2, hhh, hmi, z59⟩,
      rfl, rfl, rfl, Or.inl rfl⟩
  case tenMinutes =>
    have hmi2 : 10 * dval c14 + dval c15 ≤ 59 := by
      have e : pyInt [c14, c15] ≤ 59 := hmi
      rw [pyInt_two] at e
      exact e
    have e10 : minuteVal (assignWindow .tenMinutes [c0, c1, c2, c3, c4, c5, c6, c7, c8, c9, c10, c11, c12, c13, c14, c15, c16, c17, c18, c19, c20, c21, c22, c23, c24, c25]) =
        10 * (10 * 0 + dval c14) + dval '0' := rfl
    have h0 : dval '0' = 0 := rfl
    have hmiout : minuteVal (assignWindow .tenMinutes [c0, c1, c2, c3, c4, c5, c6, c7, c8, c9, c10, c11, c12, c13, c14, c15, c16, c17, c18, c19, c20, c21, c22, c23, c24, c25]) ≤ 59 := by
      rw [e10]; omega
    exact ⟨⟨rfl, p0, p1, p2, p3, p4, p5, p6, p7, p8, p9, p10, p11, p12, p13, p14, dz,
      rfl, dz, dz, rfl, dz, dz, dz, p23, p24, p25, hm1, hm2, hd1, hd2, hhh, hmiout, z59⟩,
      rfl, rfl, rfl, Or.inl rfl⟩
  case fifteenMinutes =>
    have hmv : pyInt [c14, c15] ≤ 59 := hmi
    have i1 : IsDigit (digitChar (pyInt [c14, c15] / 15 * 15 / 10)) :=
      digitChar_isDigit _ (by omega)
    have i2 : IsDigit (digitChar (pyInt [c14, c15] / 15 * 15 % 10)) :=
      digitChar_isDigit _ (by omega)
    have e15 : minuteVal (assignWindow .fifteenMinutes [c0, c1, c2, c3, c4, c5, c6, c7, c8, c9, c10, c11, c12, c13, c14, c15, c16, c17, c18, c19, c20, c21, c22, c23, c24, c25]) =
        pyInt (twoDigits (pyInt [c14, c15] / 15 * 15)) := rfl
    have hmiout : minuteVal (assignWindow .fifteenMinutes [c0, c1, c2, c3, c4, c5, c6, c7, c8, c9, c10, c11, c12, c13, c14, c15, c16, c17, c18, c19, c20, c21, c22, c23, c24, c25]) ≤ 59 := by
      rw [e15, pyInt_twoDigits _ (by omega)]; omega
    exact ⟨⟨rfl, p0, p1, p2, p3, p4, p5, p6, p7, p8, p9, p10, p11, p12, p13, i1, i2,
      rfl, dz, dz, rfl, dz, dz, dz, p23, p24, p25, hm1, hm2, hd1, hd2, hhh, hmiout, z59⟩,
      rfl, rfl, rfl, Or.inl rfl⟩
  case oneHour =>
    exact ⟨⟨rfl, p0, p1, p2, p3, p4, p5, p6, p7, p8, p9, p10, p11, p12, rfl, dz, dz,
      rfl, dz, dz, rfl, dz, dz, dz, p23, p24, p25, hm1, hm2, hd1, hd2, hhh, z59, z59⟩,
      rfl, rfl, rfl, Or.inl rfl⟩
  case oneDay =>
    by_cases hr : agg1DayRaw [c0, c1, c2, c3, c4, c5, c6, c7, c8, c9, c10, c11, c12, c13, c14, c15, c16, c17, c18, c19, c20, c21, c22, c23, c24, c25] = DATE_CHANGE_WINTER.dropLast ++ ['1']
    · rw [show agg1DayRaw [c0, c1, c2, c3, c4, c5, c6, c7, c8, c9, c10, c11, c12, c13, c14, c15, c16, c17, c18, c19, c20, c21, c22, c23, c24, c25] = [c0, c1, c2, c3, c4, c5, c6, c7, c8, c9, c10, '0', '0', ':', '0', '0', ':', '0', '0', '.', '0', '0', '0', c23, c24, c25] from rfl,
        show DATE_CHANGE_WINTER.dropLast ++ ['1'] = "2017-10-29T00:00:00.000+01".toList
          from rfl] at hr
      simp only [String.toList, List.cons.injEq, true_and, and_true] at hr
      obtain ⟨rfl, rfl, rfl, rfl, rfl, rfl, rfl, rfl, rfl, rfl, rfl, rfl, rfl, rfl⟩ := hr
      have h1 : assignWindow .oneDay ['2', '0', '1', '7', '-', '1', '0', '-', '2', '9', 'T', c11, c12, c13, c14, c15, c16, c17, c18, c19, c20, c21, c22, '+', '0', '1'] = DATE_CHANGE_WINTER := by
        show replaceWinter (agg1DayRaw ['2', '0', '1', '7', '-', '1', '0', '-', '2', '9', 'T', c11, c12, c13, c14, c15, c16, c17, c18, c19, c20, c21, c22, '+', '0', '1']) = DATE_CHANGE_WINTER
        simp only [replaceWinter]
        rw [if_pos (show agg1DayRaw ['2', '0', '1', '7', '-', '1', '0', '-', '2', '9', 'T', c11, c12, c13, c14, c15, c16, c17, c18, c19, c20, c21, c22, '+', '0', '1'] = DATE_CHANGE_WINTER.dropLast ++ ['1'] from rfl)]
      rw [h1]
      refine ⟨(by decide : ValidTS DATE_CHANGE_WINTER), (by decide : secVal DATE_CHANGE_WINTER = 0),
        (by decide : msVal DATE_CHANGE_WINTER = 0), rfl, Or.inr ⟨rfl, rfl, rfl, rfl⟩⟩
    · have h1 : assignWindow .oneDay [c0, c1, c2, c3, c4, c5, c6, c7, c8, c9, c10, c11, c12, c13, c14, c15, c16, c17, c18, c19, c20, c21, c22, c23, c24, c25] = agg1DayRaw [c0, c1, c2, c3, c4, c5, c6, c7, c8, c9, c10, c11, c12, c13, c14, c15, c16, c17, c18, c19, c20, c21, c22, c23, c24, c25] := by
        show replaceWinter (agg1DayRaw [c0, c1, c2, c3, c4, c5, c6, c7, c8, c9, c10, c11, c12, c13, c14, c15, c16, c17, c18, c19, c20, c21, c22, c23, c24, c25]) = agg1DayRaw [c0, c1, c2, c3, c4, c5, c6, c7, c8, c9, c10, c11, c12, c13, c14, c15, c16, c17, c18, c19, c20, c21, c22, c23, c24, c25]
        simp only [replaceWinter]
        rw [if_neg hr]
      rw [h1]
      exact ⟨⟨rfl, p0, p1, p2, p3, p4, p5, p6, p7, p8, p9, p10, dz, dz, rfl, dz, dz,
        rfl, dz, dz, rfl, dz, dz, dz, p23, p24, p25, hm1, hm2, hd1, hd2,
        (by decide : (0 : ℕ) ≤ 23), z59, z59⟩,
        rfl, rfl, rfl, Or.inl rfl⟩

/-- Witness for C10 at minute granularity on `2017-10-29T12:34:56.789+01`. -/
theorem c10_window_identifier_invariants_witness :
    ValidTS "2017-10-29T12:34:56.789+01".toList ∧
    ValidTS (assignWindow .minute "2017-10-29T12:34:56.789+01".toList) :=
  ⟨by decide, (c10_window_identifier_invariants .minute
    "2017-10-29T12:34:56.789+01".toList (by decide)).1⟩

/-! ## Lexical order on character lists

`List.Lex` with the code-point order on `Char` is exactly Python's string
comparison on the fixed-width timestamps at hand.
-/

/-- Lexical less-or-equal on character lists. -/
def lexLe (a b : List Char) : Prop := List.Lex (· < ·) a b ∨ a = b

instance (a b : List Char) : Decidable (lexLe a b) := by unfold lexLe; infer_instance

/-- A common prefix neither creates nor destroys lexical comparisons. -/
theorem lex_append_left_iff (p u v : List Char) :
    List.Lex (· < ·) (p ++ u) (p ++ v) ↔ List.Lex (· < ·) u v := by
  induction p with
  | nil => simp
  | cons a p ih =>
    constructor
    · intro h
      cases h with
      | cons h => exact ih.mp h
      | rel h => exact absurd h (lt_irrefl a)
    · intro h
      exact List.Lex.cons (ih.mpr h)

/-- A strict lexical comparison of equal-length lists survives appending
arbitrary suffixes (the first difference lies inside the common length). -/
theorem lex_append_of_length_eq {a b : List Char} (h : List.Lex (· < ·) a b) :
    a.length = b.length → ∀ u v : List Char, List.Lex (· < ·) (a ++ u) (b ++ v) := by
  induction h with
  | nil =>
    intro hlen u v
    simp at hlen
  | cons h ih =>
    intro hlen u v
    refine List.Lex.cons (ih ?_ u v)
    simpa using hlen
  | rel h =>
    intro _ u v
    exact List.Lex.rel h

/-- A strict lexical comparison of equal-length lists is preserved by
`take`, up to equality. -/
theorem lex_take {a b : List Char} (h : List.Lex (· < ·) a b) :
    a.length = b.length → ∀ n : ℕ, lexLe (a.take n) (b.take n) := by
  induction h with
  | nil =>
    intro hlen n
    simp at hlen
  | cons h ih =>
    intro hlen n
    cases n with
    | zero => exact Or.inr rfl
    | succ n =>
      rcases ih (by simpa using hlen) n with h2 | h2
      · exact Or.inl (List.Lex.cons h2)
      · rw [List.take_succ_cons, List.take_succ_cons, h2]
        exact Or.inr rfl
  | rel h =>
    intro _ n
    cases n with
    | zero => exact Or.inr rfl
    | succ n => exact Or.inl (List.Lex.rel h)

/-- `lexLe` of equal-length lists is preserved by `take`. -/
theorem lexLe_take {a b : List Char} (h : lexLe a b) (hlen : a.length = b.length)
    (n : ℕ) : lexLe (a.take n) (b.take n) := by
  rcases h with h | rfl
  · exact lex_take h hlen n
  · exact Or.inr rfl

/-- `lexLe` restricts to the suffixes once the prefixes agree. -/
theorem lexLe_drop_of_take_eq {a b : List Char} (n : ℕ) (h : lexLe a b)
    (hteq : a.take n = b.take n) : lexLe (a.drop n) (b.drop n) := by
  rcases h with h | rfl
  · left
    rw [← List.take_append_drop n a, ← List.take_append_drop n b, hteq] at h
    exact (lex_append_left_iff _ _ _).mp h
  · exact Or.inr rfl

/-- The two-digit rendering is strictly monotone below 100. -/
theorem twoDigits_lex {q1 q2 : ℕ} (h1 : q1 < 100) (h2 : q2 < 100) (hlt : q1 < q2) :
    List.Lex (· < ·) (twoDigits q1) (twoDigits q2) := by
  unfold twoDigits
  rcases Nat.lt_or_ge (q1 / 10) (q2 / 10) with hd | hd
  · exact List.Lex.rel ((digitChar_lt_iff _ (by omega) _ (by omega)).mpr hd)
  · have hdeq : q1 / 10 = q2 / 10 := by omega
    have hm : q1 % 10 < q2 % 10 := by omega
    rw [hdeq]
    exact List.Lex.cons (List.Lex.rel ((digitChar_lt_iff _ (by omega) _ (by omega)).mpr hm))

/-! ## Chronological order of timestamps

For the refutation of the chronological-monotonicity property the true
instant of a timestamp is needed: calendar date to epoch days by the
standard civil-from-days algorithm, then clock fields minus the UTC
offset. All intermediate operands are non-negative for the dates at hand,
so the integer-division convention is immaterial.
-/

/-- Days since 1970-01-01 of a Gregorian calendar date. -/
def daysFromCivil (y m d : ℤ) : ℤ :=
  let y2 : ℤ := if m ≤ 2 then y - 1 else y
  let era : ℤ := (if 0 ≤ y2 then y2 else y2 - 399) / 400
  let yoe : ℤ := y2 - era * 400
  let mp : ℤ := if 2 < m then m - 3 else m + 9
  let doy : ℤ := (153 * mp + 2) / 5 + d - 1
  let doe : ℤ := yoe * 365 + yoe / 4 - yoe / 100 + doy
  era * 146097 + doe - 719468

/-- The UTC instant denoted by a valid timestamp, in milliseconds since
the epoch: local clock reading minus the UTC offset. -/
def instantMs (x : List Char) : ℤ :=
  daysFromCivil (yearVal x) (monthVal x) (dayVal x) * 86400000 +
    ((hourVal x : ℤ) * 3600000 + (minuteVal x : ℤ) * 60000 +
      (secVal x : ℤ) * 1000 + (msVal x : ℤ)) -
    (if offSign x = '-' then -1 else 1) * (offHH x : ℤ) * 3600000

/-! ## C3: monotonicity of window assignment -/

/-- C3 counterexample: on the DST transition day the two valid timestamps
`2017-10-29T02:30:00.000+02` (00:30 UTC) and `2017-10-29T02:10:00.000+01`
(01:10 UTC) are in chronological order, yet their minute-granularity
window identifiers compare strictly the other way lexically, so
chronological monotonicity of window assignment fails as stated. -/
theorem c3_chronological_monotonicity_fails :
    ValidTS "2017-10-29T02:30:00.000+02".toList ∧
    ValidTS "2017-10-29T02:10:00.000+01".toList ∧
    instantMs "2017-10-29T02:30:00.000+02".toList ≤
      instantMs "2017-10-29T02:10:00.000+01".toList ∧
    ¬ lexLe (assignWindow .minute "2017-10-29T02:30:00.000+02".toList)
        (assignWindow .minute "2017-10-29T02:10:00.000+01".toList) :=
  ⟨by decide, by decide, by decide, by decide⟩

/-- C3 amended: for every supported granularity, window assignment is
monotone with respect to lexical order on valid timestamps carrying the
same UTC-offset suffix (for same-offset fixed-width timestamps lexical
order coincides with chronological order). -/
theorem c3_assign_window_lexically_monotone (g : Granularity) (x1 x2 : List Char)
    (h1 : ValidTS x1) (h2 : ValidTS x2) (hoff : lastThree x1 = lastThree x2)
    (hle : lexLe x1 x2) :
    lexLe (assignWindow g x1) (assignWindow g x2) := by
  obtain ⟨a0, a1, a2, a3, a4, a5, a6, a7, a8, a9, a10, a11, a12, a13, a14, a15, a16, a17, a18, a19, a20, a21, a22, a23, a24, a25, rfl⟩ := explode26 x1 h1.1
  obtain ⟨b0, b1, b2, b3, b4, b5, b6, b7, b8, b9, b10, b11, b12, b13, b14, b15, b16, b17, b18, b19, b20, b21, b22, b23, b24, b25, rfl⟩ := explode26 x2 h2.1
  obtain ⟨-, -, -, -, -, -, -, -, -, -, -, -, -, -, -, ha14, ha15, -⟩ := h1
  obtain ⟨-, -, -, -, -, -, -, -, -, -, -, -, -, -, -, hb14, hb15, -⟩ := h2
  have hoff2 : ([a23, a24, a25] : List Char) = [b23, b24, b25] := hoff
  simp only [List.cons.injEq, and_true] at hoff2
  obtain ⟨rfl, rfl, rfl⟩ := hoff2
  have hlen : ([a0, a1, a2, a3, a4, a5, a6, a7, a8, a9, a10, a11, a12, a13, a14, a15, a16, a17, a18, a19, a20, a21, a22, a23, a24, a25] : List Char).length = ([b0, b1, b2, b3, b4, b5, b6, b7, b8, b9, b10, b11, b12, b13, b14, b15, b16, b17, b18, b19, b20, b21, b22, a23, a24, a25] : List Char).length := rfl
  cases g
  case minute =>
    rcases lexLe_take hle hlen 16 with hstrict | heq
    · exact Or.inl (lex_append_of_length_eq hstrict rfl
        (":00.000".toList ++ [a23, a24, a25]) (":00.000".toList ++ [a23, a24, a25]))
    · have heq2 : ([a0, a1, a2, a3, a4, a5, a6, a7, a8, a9, a10, a11, a12, a13, a14, a15] : List Char) = [b0, b1, b2, b3, b4, b5, b6, b7, b8, b9, b10, b11, b12, b13, b14, b15] := heq
      simp only [List.cons.injEq, and_true] at heq2
      obtain ⟨rfl, rfl, rfl, rfl, rfl, rfl, rfl, rfl, rfl, rfl, rfl, rfl, rfl, rfl, rfl, rfl⟩ := heq2
      exact Or.inr rfl
  case tenMinutes =>
    rcases lexLe_take hle hlen 15 with hstrict | heq
    · exact Or.inl (lex_append_of_length_eq hstrict rfl
        ("0:00.000".toList ++ [a23, a24, a25]) ("0:00.000".toList ++ [a23, a24, a25]))
    · have heq2 : ([a0, a1, a2, a3, a4, a5, a6, a7, a8, a9, a10, a11, a12, a13, a14] : List Char) = [b0, b1, b2, b3, b4, b5, b6, b7, b8, b9, b10, b11, b12, b13, b14] := heq
      simp only [List.cons.injEq, and_true] at heq2
      obtain ⟨rfl, rfl, rfl, rfl, rfl, rfl, rfl, rfl, rfl, rfl, rfl, rfl, rfl, rfl, rfl⟩ := heq2
      exact Or.inr rfl
  case oneHour =>
    rcases lexLe_take hle hlen 13 with hstrict | heq
    · exact Or.inl (lex_append_of_length_eq hstrict rfl
        (":00:00.000".toList ++ [a23, a24, a25]) (":00:00.000".toList ++ [a23, a24, a25]))
    · have heq2 : ([a0, a1, a2, a3, a4, a5, a6, a7, a8, a9, a10, a11, a12] : List Char) = [b0, b1, b2, b3, b4, b5, b6, b7, b8, b9, b10, b11, b12] := heq
      simp only [List.cons.injEq, and_true] at heq2
      obtain ⟨rfl, rfl, rfl, rfl, rfl, rfl, rfl, rfl, rfl, rfl, rfl, rfl, rfl⟩ := heq2
      exact Or.inr rfl
  case fifteenMinutes =>
    have hA14 := isDigit_bounds (show IsDigit a14 from ha14)
    have hA15 := isDigit_bounds (show IsDigit a15 from ha15)
    have hB14 := isDigit_bounds (show IsDigit b14 from hb14)
    have hB15 := isDigit_bounds (show IsDigit b15 from hb15)
    have hmv1 : pyInt [a14, a15] = 10 * dval a14 + dval a15 := pyInt_two _ _
    have hmv2 : pyInt [b14, b15] = 10 * dval b14 + dval b15 := pyInt_two _ _
    simp only [dval] at hmv1 hmv2
    rcases lexLe_take hle hlen 14 with hstrict | heq
    · exact Or.inl (lex_append_of_length_eq hstrict rfl
        (twoDigits (pyInt [a14, a15] / 15 * 15) ++ ":00.000".toList ++ [a23, a24, a25])
        (twoDigits (pyInt [b14, b15] / 15 * 15) ++ ":00.000".toList ++ [a23, a24, a25]))
    · have heq2 : ([a0, a1, a2, a3, a4, a5, a6, a7, a8, a9, a10, a11, a12, a13] : List Char) = [b0, b1, b2, b3, b4, b5, b6, b7, b8, b9, b10, b11, b12, b13] := heq
      simp only [List.cons.injEq, and_true] at heq2
      obtain ⟨rfl, rfl, rfl, rfl, rfl, rfl, rfl, rfl, rfl, rfl, rfl, rfl, rfl, rfl⟩ := heq2
      have hdrop := lexLe_drop_of_take_eq 14 hle heq
      have hdrop2 : lexLe (a14 :: a15 :: [a16, a17, a18, a19, a20, a21, a22, a23, a24, a25]) (b14 :: b15 :: [b16, b17, b18, b19, b20, b21, b22, a23, a24, a25]) := hdrop
      have hmvle : pyInt [a14, a15] ≤ pyInt [b14, b15] := by
        rcases hdrop2 with hlex | heqL
        · cases hlex with
          | rel hlt =>
            have hcc := char_lt_iff.mp hlt
            omega
          | cons htail =>
            cases htail with
            | rel hlt =>
              have hcc := char_lt_iff.mp hlt
              omega
            | cons htail2 => omega
        · simp only [List.cons.injEq] at heqL
          obtain ⟨rfl, rfl, -⟩ := heqL
          exact Nat.le_refl _
      have hq1 : pyInt [a14, a15] / 15 * 15 < 100 := by omega
      have hq2 : pyInt [b14, b15] / 15 * 15 < 100 := by omega
      rcases Nat.eq_or_lt_of_le
          (show pyInt [a14, a15] / 15 * 15 ≤ pyInt [b14, b15] / 15 * 15 by omega)
        with hqe | hql
      · rw [show assignWindow .fifteenMinutes ([a0, a1, a2, a3, a4, a5, a6, a7, a8, a9, a10, a11, a12, a13, a14, a15, a16, a17, a18, a19, a20, a21, a22, a23, a24, a25] : List Char) =
            [a0, a1, a2, a3, a4, a5, a6, a7, a8, a9, a10, a11, a12, a13] ++ twoDigits (pyInt [a14, a15] / 15 * 15) ++ ":00.000".toList ++
              [a23, a24, a25] from rfl,
          show assignWindow .fifteenMinutes ([a0, a1, a2, a3, a4, a5, a6, a7, a8, a9, a10, a11, a12, a13, b14, b15, b16, b17, b18, b19, b20, b21, b22, a23, a24, a25] : List Char) =
            [a0, a1, a2, a3, a4, a5, a6, a7, a8, a9, a10, a11, a12, a13] ++ twoDigits (pyInt [b14, b15] / 15 * 15) ++ ":00.000".toList ++
              [a23, a24, a25] from rfl,
          hqe]
        exact Or.inr rfl
      · refine Or.inl ?_
        exact (lex_append_left_iff [a0, a1, a2, a3, a4, a5, a6, a7, a8, a9, a10, a11, a12, a13]
            (twoDigits (pyInt [a14, a15] / 15 * 15) ++ (":00.000".toList ++ [a23, a24, a25]))
            (twoDigits (pyInt [b14, b15] / 15 * 15) ++ (":00.000".toList ++ [a23, a24, a25]))).mpr
          (lex_append_of_length_eq (twoDigits_lex hq1 hq2 hql) rfl _ _)
  case oneDay =>
    rcases lexLe_take hle hlen 11 with hstrict | heq
    · by_cases hr1 : ([a0, a1, a2, a3, a4, a5, a6, a7, a8, a9, a10, '0', '0', ':', '0', '0', ':', '0', '0', '.', '0', '0', '0', a23, a24, a25] : List Char) = DATE_CHANGE_WINTER.dropLast ++ ['1']
      · have hr1e : ([a0, a1, a2, a3, a4, a5, a6, a7, a8, a9, a10, '0', '0', ':', '0', '0', ':', '0', '0', '.', '0', '0', '0', a23, a24, a25] : List Char) = "2017-10-29T00:00:00.000+01".toList := hr1
        simp only [String.toList, List.cons.injEq, true_and, and_true] at hr1e
        obtain ⟨rfl, rfl, rfl, rfl, rfl, rfl, rfl, rfl, rfl, rfl, rfl, rfl, rfl, rfl⟩ := hr1e
        have e1 : assignWindow .oneDay (['2', '0', '1', '7', '-', '1', '0', '-', '2', '9', 'T', a11, a12, a13, a14, a15, a16, a17, a18, a19, a20, a21, a22, '+', '0', '1'] : List Char) = DATE_CHANGE_WINTER := by
          show replaceWinter (['2', '0', '1', '7', '-', '1', '0', '-', '2', '9', 'T', '0', '0', ':', '0', '0', ':', '0', '0', '.', '0', '0', '0', '+', '0', '1'] : List Char) = DATE_CHANGE_WINTER
          simp only [replaceWinter]
          rw [if_pos hr1]
        by_cases hr2 : ([b0, b1, b2, b3, b4, b5, b6, b7, b8, b9, b10, '0', '0', ':', '0', '0', ':', '0', '0', '.', '0', '0', '0', '+', '0', '1'] : List Char) = DATE_CHANGE_WINTER.dropLast ++ ['1']
        · have e2 : assignWindow .oneDay ([b0, b1, b2, b3, b4, b5, b6, b7, b8, b9, b10, b11, b12, b13, b14, b15, b16, b17, b18, b19, b20, b21, b22, '+', '0', '1'] : List Char) = DATE_CHANGE_WINTER := by
            show replaceWinter ([b0, b1, b2, b3, b4, b5, b6, b7, b8, b9, b10, '0', '0', ':', '0', '0', ':', '0', '0', '.', '0', '0', '0', '+', '0', '1'] : List Char) = DATE_CHANGE_WINTER
            simp only [replaceWinter]
            rw [if_pos hr2]
          rw [e1, e2]
          exact Or.inr rfl
        · have e2 : assignWindow .oneDay ([b0, b1, b2, b3, b4, b5, b6, b7, b8, b9, b10, b11, b12, b13, b14, b15, b16, b17, b18, b19, b20, b21, b22, '+', '0', '1'] : List Char) =
              ([b0, b1, b2, b3, b4, b5, b6, b7, b8, b9, b10, '0', '0', ':', '0', '0', ':', '0', '0', '.', '0', '0', '0', '+', '0', '1'] : List Char) := by
            show replaceWinter ([b0, b1, b2, b3, b4, b5, b6, b7, b8, b9, b10, '0', '0', ':', '0', '0', ':', '0', '0', '.', '0', '0', '0', '+', '0', '1'] : List Char) =
              ([b0, b1, b2, b3, b4, b5, b6, b7, b8, b9, b10, '0', '0', ':', '0', '0', ':', '0', '0', '.', '0', '0', '0', '+', '0', '1'] : List Char)
            simp only [replaceWinter]
            rw [if_neg hr2]
          rw [e1, e2]
          exact Or.inl (lex_append_of_length_eq hstrict rfl ['0', '0', ':', '0', '0', ':', '0', '0', '.', '0', '0', '0', '+', '0', '2'] ['0', '0', ':', '0', '0', ':', '0', '0', '.', '0', '0', '0', '+', '0', '1'])
      · by_cases hr2 : ([b0, b1, b2, b3, b4, b5, b6, b7, b8, b9, b10, '0', '0', ':', '0', '0', ':', '0', '0', '.', '0', '0', '0', a23, a24, a25] : List Char) = DATE_CHANGE_WINTER.dropLast ++ ['1']
        · have hr2e : ([b0, b1, b2, b3, b4, b5, b6, b7, b8, b9, b10, '0', '0', ':', '0', '0', ':', '0', '0', '.', '0', '0', '0', a23, a24, a25] : List Char) = "2017-10-29T00:00:00.000+01".toList := hr2
          simp only [String.toList, List.cons.injEq, true_and, and_true] at hr2e
          obtain ⟨rfl, rfl, rfl, rfl, rfl, rfl, rfl, rfl, rfl, rfl, rfl, rfl, rfl, rfl⟩ := hr2e
          have e1 : assignWindow .oneDay ([a0, a1, a2, a3, a4, a5, a6, a7, a8, a9, a10, a11, a12, a13, a14, a15, a16, a17, a18, a19, a20, a21, a22, '+', '0', '1'] : List Char) =
              ([a0, a1, a2, a3, a4, a5, a6, a7, a8, a9, a10, '0', '0', ':', '0', '0', ':', '0', '0', '.', '0', '0', '0', '+', '0', '1'] : List Char) := by
            show replaceWinter ([a0, a1, a2, a3, a4, a5, a6, a7, a8, a9, a10, '0', '0', ':', '0', '0', ':', '0', '0', '.', '0', '0', '0', '+', '0', '1'] : List Char) =
              ([a0, a1, a2, a3, a4, a5, a6, a7, a8, a9, a10, '0', '0', ':', '0', '0', ':', '0', '0', '.', '0', '0', '0', '+', '0', '1'] : List Char)
            simp only [replaceWinter]
            rw [if_neg hr1]
          have e2 : assignWindow .oneDay (['2', '0', '1', '7', '-', '1', '0', '-', '2', '9', 'T', b11, b12, b13, b14, b15, b16, b17, b18, b19, b20, b21, b22, '+', '0', '1'] : List Char) =
              DATE_CHANGE_WINTER := by
            show replaceWinter (['2', '0', '1', '7', '-', '1', '0', '-', '2', '9', 'T', '0', '0', ':', '0', '0', ':', '0', '0', '.', '0', '0', '0', '+', '0', '1'] : List Char) = DATE_CHANGE_WINTER
            simp only [replaceWinter]
            rw [if_pos hr2]
          rw [e1, e2]
          exact Or.inl (lex_append_of_length_eq hstrict rfl ['0', '0', ':', '0', '0', ':', '0', '0', '.', '0', '0', '0', '+', '0', '1'] ['0', '0', ':', '0', '0', ':', '0', '0', '.', '0', '0', '0', '+', '0', '2'])
        · have e1 : assignWindow .oneDay ([a0, a1, a2, a3, a4, a5, a6, a7, a8, a9, a10, a11, a12, a13, a14, a15, a16, a17, a18, a19, a20, a21, a22, a23, a24, a25] : List Char) =
              ([a0, a1, a2, a3, a4, a5, a6, a7, a8, a9, a10, '0', '0', ':', '0', '0', ':', '0', '0', '.', '0', '0', '0', a23, a24, a25] : List Char) := by
            show replaceWinter ([a0, a1, a2, a3, a4, a5, a6, a7, a8, a9, a10, '0', '0', ':', '0', '0', ':', '0', '0', '.', '0', '0', '0', a23, a24, a25] : List Char) =
              ([a0, a1, a2, a3, a4, a5, a6, a7, a8, a9, a10, '0', '0', ':', '0', '0', ':', '0', '0', '.', '0', '0', '0', a23, a24, a25] : List Char)
            simp only [replaceWinter]
            rw [if_neg hr1]
          have e2 : assignWindow .oneDay ([b0, b1, b2, b3, b4, b5, b6, b7, b8, b9, b10, b11, b12, b13, b14, b15, b16, b17, b18, b19, b20, b21, b22, a23, a24, a25] : List Char) =
              ([b0, b1, b2, b3, b4, b5, b6, b7, b8, b9, b10, '0', '0', ':', '0', '0', ':', '0', '0', '.', '0', '0', '0', a23, a24, a25] : List Char) := by
            show replaceWinter ([b0, b1, b2, b3, b4, b5, b6, b7, b8, b9, b10, '0', '0', ':', '0', '0', ':', '0', '0', '.', '0', '0', '0', a23, a24, a25] : List Char) =
              ([b0, b1, b2, b3, b4, b5, b6, b7, b8, b9, b10, '0', '0', ':', '0', '0', ':', '0', '0', '.', '0', '0', '0', a23, a24, a25] : List Char)
            simp only [replaceWinter]
            rw [if_neg hr2]
          rw [e1, e2]
          exact Or.inl (lex_append_of_length_eq hstrict rfl
            ("00:00:00.000".toList ++ [a23, a24, a25])
            ("00:00:00.000".toList ++ [a23, a24, a25]))
    · have heq2 : ([a0, a1, a2, a3, a4, a5, a6, a7, a8, a9, a10] : List Char) = [b0, b1, b2, b3, b4, b5, b6, b7, b8, b9, b10] := heq
      simp only [List.cons.injEq, and_true] at heq2
      obtain ⟨rfl, rfl, rfl, rfl, rfl, rfl, rfl, rfl, rfl, rfl, rfl⟩ := heq2
      exact Or.inr rfl

/-- Witness for the amended C3 at 15-minutes granularity on the spec's two
example timestamps (same offset, lexically ordered). -/
theorem c3_assign_window_lexically_monotone_witness :
    ValidTS "2017-10-01T00:07:23.500+02".toList ∧
    ValidTS "2017-10-01T00:17:00.000+02".toList ∧
    lastThree "2017-10-01T00:07:23.500+02".toList =
      lastThree "2017-10-01T00:17:00.000+02".toList ∧
    lexLe "2017-10-01T00:07:23.500+02".toList "2017-10-01T00:17:00.000+02".toList ∧
    lexLe (assignWindow .fifteenMinutes "2017-10-01T00:07:23.500+02".toList)
      (assignWindow .fifteenMinutes "2017-10-01T00:17:00.000+02".toList) :=
  ⟨by decide, by decide, by decide, by decide,
    c3_assign_window_lexically_monotone .fifteenMinutes
      "2017-10-01T00:07:23.500+02".toList "2017-10-01T00:17:00.000+02".toList
      (by decide) (by decide) (by decide) (by decide)⟩

/-! ## Feature calculators (`src/custom_features.py`)

Sensor readings are embedded as `ℚ`. A calculator outcome is either a
numeric value, the float `NaN` sentinel, or a raised exception.
-/

/-- Outcome of a feature calculation. -/
inductive FeatRes (α : Type) where
  | val : α → FeatRes α
  | nan : FeatRes α
  | raise : FeatRes α
deriving DecidableEq

/-- `np.max` of an array: raises `ValueError` on an empty array. -/
def npMax : List ℚ → Option ℚ
  | [] => none
  | y :: ys => some (ys.foldl max y)

/-- `np.min` of an array: raises `ValueError` on an empty array. -/
def npMin : List ℚ → Option ℚ
  | [] => none
  | y :: ys => some (ys.foldl min y)

/-- `crest_factor(x)`: `np.NaN` for `len(x) < 1`, else
`np.max(np.abs(x)) / np.sqrt(np.mean(np.square(x)))`. The value is kept as
the pair (max of absolute values, mean of squares), denoting `m / √s`: the
square root leaves `ℚ`, and the properties at issue concern only which
branch is taken. -/
def crest_factor (x : List ℚ) : FeatRes (ℚ × ℚ) :=
  match x with
  | [] => .nan
  | y :: ys =>
    .val ((ys.map (fun v => |v|)).foldl max |y|,
      ((y :: ys).map (fun v => v * v)).sum / (y :: ys).length)

/-- `percentage_non_zero_values(x)`: `x.astype(bool).mean()`; numpy's mean
of an empty array is `NaN` (a runtime warning, not an exception). -/
def percentage_non_zero_values (x : List ℚ) : FeatRes ℚ :=
  match x with
  | [] => .nan
  | _ => .val ((x.countP (fun v => v != 0) : ℚ) / (x.length : ℚ))

/-- `num_states(x)`: `len(np.unique(x))`, the number of distinct values;
the source has no empty-input guard, and `np.unique` of an empty array is
empty, so the result is the value 0 there. -/
def num_states (x : List ℚ) : FeatRes ℚ :=
  .val (x.dedup.length : ℚ)

/-- `num_maxima(x)`: `np.max(x)` (raising on empty input), then
`sum(x == maximum)`; over `ℚ` the guard `maximum != np.NaN` of the source
is always satisfied (it is in Python too, since `NaN != NaN`). -/
def num_maxima (x : List ℚ) : FeatRes ℚ :=
  match npMax x with
  | none => .raise
  | some m => .val (x.countP (fun v => v == m) : ℚ)

/-- `num_minima(x)`: dually, `np.min(x)` then `sum(x == minimum)`. -/
def num_minima (x : List ℚ) : FeatRes ℚ :=
  match npMin x with
  | none => .raise
  | some m => .val (x.countP (fun v => v == m) : ℚ)

/-- `sum(np.array(range(i, ...)) * x)`: Σ (i + k) · x_k. -/
def iSum : ℕ → List ℚ → ℚ
  | _, [] => 0
  | i, y :: ys => (i : ℚ) * y + iSum (i + 1) ys

/-- Σ (i + k)² · x_k. -/
def iSqSum : ℕ → List ℚ → ℚ
  | _, [] => 0
  | i, y :: ys => ((i : ℚ) * i) * y + iSqSum (i + 1) ys

/-- `linear_weighted_average(x)`: `np.NaN` for `n < 1`, else
`2 / (n (n + 1)) · Σ i·x_i`, `i = 1..n`. -/
def linear_weighted_average (x : List ℚ) : FeatRes ℚ :=
  if x.length < 1 then .nan
  else .val (2 / ((x.length : ℚ) * ((x.length : ℚ) + 1)) * iSum 1 x)

/-- `quadratic_weighted_average(x)`: `np.NaN` for `n < 1`, else
`6 / (n (n + 1) (2n + 1)) · Σ i²·x_i`, `i = 1..n`. -/
def quadratic_weighted_average (x : List ℚ) : FeatRes ℚ :=
  if x.length < 1 then .nan
  else .val (6 / ((x.length : ℚ) * ((x.length : ℚ) + 1) *
    (2 * (x.length : ℚ) + 1)) * iSqSum 1 x)

/-- Elementwise `v > m` against a possibly-`NaN` threshold: any comparison
against `NaN` is `False`. -/
def pyGtNaN (v : ℚ) (m : Option ℚ) : Bool :=
  match m with
  | none => false
  | some q => decide (q < v)

/-- Number of positions where consecutive booleans differ
(`np.where(np.diff(positive))[0].size`). -/
def countFlips : List Bool → ℕ
  | [] => 0
  | [_] => 0
  | b1 :: b2 :: bs => (if b1 != b2 then 1 else 0) + countFlips (b2 :: bs)

/-- Modelled from the tsfresh library (an import of this repository, not
part of its sources): `number_crossing_m(x, m)` computes the boolean
vector `positive = x > m` and counts the sign changes `np.diff` finds in
it. -/
def number_crossing_m (x : List ℚ) (m : Option ℚ) : ℚ :=
  (countFlips (x.map (fun v => pyGtNaN v m)) : ℚ)

/-- `x.mean()` of a pandas series: `NaN` on an empty series. -/
def seriesMean (x : List ℚ) : Option ℚ :=
  match x with
  | [] => none
  | _ => some (x.sum / (x.length : ℚ))

/-- `number_crossing_mean(x)` = `number_crossing_m(x, x.mean())`; on empty
input the mean is `NaN`, every comparison against it is `False`, and the
crossing count is the value 0 — no exception, but not the sentinel. -/
def number_crossing_mean (x : List ℚ) : FeatRes ℚ :=
  .val (number_crossing_m x (seriesMean x))

/-! ## C1: empty input to the custom feature calculators -/

/-- C1 counterexample: `num_maxima` raises an exception on the empty
sequence (numpy's `np.max` of an empty array raises `ValueError`) rather
than returning the sentinel, refuting both halves of the claim at once. -/
theorem c1_num_maxima_raises_on_empty :
    num_maxima ([] : List ℚ) = FeatRes.raise ∧
    (FeatRes.raise : FeatRes ℚ) ≠ FeatRes.nan :=
  ⟨rfl, by decide⟩

/-- C1 amended: on the empty sequence, `crest_factor`,
`percentage_non_zero_values`, `linear_weighted_average` and
`quadratic_weighted_average` return the `NaN` sentinel;
`num_states` and `number_crossing_mean` return the value 0 (not the
sentinel); and `num_maxima` and `num_minima` raise an exception. -/
theorem c1_empty_input_behaviour :
    crest_factor ([] : List ℚ) = .nan ∧
    percentage_non_zero_values ([] : List ℚ) = .nan ∧
    num_states ([] : List ℚ) = .val 0 ∧
    num_maxima ([] : List ℚ) = .raise ∧
    num_minima ([] : List ℚ) = .raise ∧
    linear_weighted_average ([] : List ℚ) = .nan ∧
    quadratic_weighted_average ([] : List ℚ) = .nan ∧
    number_crossing_mean ([] : List ℚ) = .val 0 := by
  refine ⟨rfl, rfl, ?_, rfl, rfl, rfl, rfl, ?_⟩
  · simp [num_states]
  · simp [number_crossing_mean, number_crossing_m, countFlips]

/-! ## Machine-off classification and pruning
(`custom_features.py`, `machine_off`; `main.py`, `remove_machine_off_data`)
-/

/-- A pandas `DataFrame` over numeric cells: ordered column names plus
rows. The boolean cells the classification writes are represented as
0 / 1. -/
structure Table where
  cols : List String
  rows : List (List ℚ)
deriving DecidableEq

/-- `row[c]` cell lookup by column name (first occurrence, as in pandas
with unique labels); `none` models a `KeyError`. -/
def getCell (cols : List String) (r : List ℚ) (c : String) : Option ℚ :=
  match cols.indexOf? c with
  | none => none
  | some i => r.get? i

/-- `machine_off(data, machine_off_threshold)`, row-wise: with an `I2_A`
column present the mask is
`data[['I1_A','I2_A','I3_A']].max(axis=1).abs() <= machine_off_threshold`
— the absolute value of the row maximum, not the maximum of the absolute
values; otherwise `data[[target]].abs() <= machine_off_threshold` for
`target = 'IAVR_A' if present else 'I1_A'`. -/
def machine_off_row (cols : List String) (r : List ℚ) (thr : ℚ) : Option Bool :=
  if cols.contains "I2_A" then
    match getCell cols r "I1_A", getCell cols r "I2_A", getCell cols r "I3_A" with
    | some i1, some i2, some i3 => some (decide (|max i1 (max i2 i3)| ≤ thr))
    | _, _, _ => none
  else
    match getCell cols r (if cols.contains "IAVR_A" then "IAVR_A" else "I1_A") with
    | some v => some (decide (|v| ≤ thr))
    | none => none

/-- Collect a list of optional mask bits; `none` if any row failed. -/
def allSome : List (Option Bool) → Option (List Bool)
  | [] => some []
  | none :: _ => none
  | some b :: rest =>
    match allSome rest with
    | none => none
    | some l => some (b :: l)

/-- `data[~mask]`: keep the rows whose mask bit is false, in order. -/
def selectRows : List (List ℚ) → List Bool → List (List ℚ)
  | [], _ => []
  | _ :: _, [] => []
  | r :: rows, b :: mask =>
    if b then selectRows rows mask else r :: selectRows rows mask

/-- `main.py`, `remove_machine_off_data(data, machine_off_threshold)`:
computes the mask, writes it into column `machine_off` (pandas column
assignment appends a new last column, or overwrites in place if the name
exists), keeps the rows where the mask is false, and selects
`data.columns[:-1]` — dropping the last column name; with unique column
labels that selection is positionally the `dropLast` of every row. -/
def remove_machine_off_data (t : Table) (thr : ℚ) : Option Table :=
  match allSome (t.rows.map (fun r => machine_off_row t.cols r thr)) with
  | none => none
  | some mask =>
    if t.cols.contains "machine_off" then
      let rows1 := List.zipWith
        (fun r b => r.set (t.cols.indexOf "machine_off") (if b then 1 else 0)) t.rows mask
      some ⟨t.cols.dropLast, (selectRows rows1 mask).map List.dropLast⟩
    else
      let rows1 := List.zipWith (fun r b => r ++ [if b then 1 else 0]) t.rows mask
      some ⟨(t.cols ++ ["machine_off"]).dropLast, (selectRows rows1 mask).map List.dropLast⟩

/-- Selecting rows commutes with a per-row rewrite that `dropLast`
undoes. -/
theorem selectRows_zipWith_dropLast (g : List ℚ → Bool → List ℚ)
    (hg : ∀ r b, (g r b).dropLast = r) :
    ∀ (rows : List (List ℚ)) (mask : List Bool),
      (selectRows (List.zipWith g rows mask) mask).map List.dropLast =
        selectRows rows mask := by
  intro rows
  induction rows with
  | nil => intro mask; rfl
  | cons r rows ih =>
    intro mask
    cases mask with
    | nil => rfl
    | cons b mask =>
      show (selectRows (g r b :: List.zipWith g rows mask) (b :: mask)).map List.dropLast =
        selectRows (r :: rows) (b :: mask)
      cases b with
      | false => simp [selectRows, hg, ih mask]
      | true => simp [selectRows, ih mask]

/-- The selected rows are a subsequence of the original rows. -/
theorem selectRows_sublist (rows : List (List ℚ)) (mask : List Bool) :
    (selectRows rows mask).Sublist rows := by
  induction rows generalizing mask with
  | nil => simp [selectRows]
  | cons r rows ih =>
    cases mask with
    | nil => simp [selectRows]
    | cons b mask =>
      cases b with
      | false =>
        show (if false = true then selectRows rows mask
          else r :: selectRows rows mask).Sublist (r :: rows)
        simp only [Bool.false_eq_true, if_false]
        exact (ih mask).cons₂ r
      | true =>
        show (if true = true then selectRows rows mask
          else r :: selectRows rows mask).Sublist (r :: rows)
        simp only [if_true]
        exact (ih mask).cons r

/-! ## C9: frame conditions of `remove_machine_off_data` -/

/-- C9 counterexample: on an input table that already contains a
`machine_off` column, the column assignment overwrites it in place and
`columns[:-1]` then drops a real data column, so the output does not have
the input's columns (and the surviving row is truncated, not returned as
it was). -/
theorem c9_machine_off_column_clash :
    remove_machine_off_data ⟨["machine_off", "I1_A"], [[0, 5]]⟩ 0 =
      some ⟨["machine_off"], [[0]]⟩ ∧
    (["machine_off"] : List String) ≠ ["machine_off", "I1_A"] := by
  refine ⟨by decide, by decide⟩

/-- C9 amended: provided the input table has no `machine_off` column (true
of every table the pipeline builds) and the mask computation succeeds, the
output of `remove_machine_off_data` has exactly the input's columns, and
its rows form a subsequence of the input rows in their original order with
each surviving row unmodified. -/
theorem c9_remove_machine_off_frame (t : Table) (thr : ℚ) (t2 : Table)
    (hnc : t.cols.contains "machine_off" = false)
    (h : remove_machine_off_data t thr = some t2) :
    t2.cols = t.cols ∧ t2.rows.Sublist t.rows := by
  unfold remove_machine_off_data at h
  cases hm : allSome (t.rows.map (fun r => machine_off_row t.cols r thr)) with
  | none => rw [hm] at h; cases h
  | some mask =>
    rw [hm, hnc] at h
    simp only [Bool.false_eq_true, if_false, Option.some.injEq] at h
    subst h
    constructor
    · exact List.dropLast_concat ..
    · show ((selectRows (List.zipWith (fun r b => r ++ [if b then 1 else 0]) t.rows mask)
        mask).map List.dropLast).Sublist t.rows
      rw [selectRows_zipWith_dropLast (fun r b => r ++ [if b then 1 else 0])
        (fun r b => List.dropLast_concat ..)]
      exact selectRows_sublist t.rows mask

/-- Witness for the amended C9: a two-row three-phase table with one
off-state row. -/
theorem c9_remove_machine_off_frame_witness :
    (⟨["I1_A", "I2_A", "I3_A"], [[1, 2, 3], [0, 0, 0]]⟩ : Table).cols.contains
      "machine_off" = false ∧
    remove_machine_off_data ⟨["I1_A", "I2_A", "I3_A"], [[1, 2, 3], [0, 0, 0]]⟩ 0 =
      some ⟨["I1_A", "I2_A", "I3_A"], [[1, 2, 3]]⟩ ∧
    (⟨["I1_A", "I2_A", "I3_A"], [[1, 2, 3]]⟩ : Table).rows.Sublist
      [[1, 2, 3], [0, 0, 0]] := by
  have hrm : remove_machine_off_data ⟨["I1_A", "I2_A", "I3_A"], [[1, 2, 3], [0, 0, 0]]⟩ 0 =
      some ⟨["I1_A", "I2_A", "I3_A"], [[1, 2, 3]]⟩ := by decide
  refine ⟨rfl, hrm,
    (c9_remove_machine_off_frame ⟨["I1_A", "I2_A", "I3_A"], [[1, 2, 3], [0, 0, 0]]⟩ 0
      ⟨["I1_A", "I2_A", "I3_A"], [[1, 2, 3]]⟩ rfl hrm).2⟩

/-! ## C2: the three-phase off classification -/

/-- C2 counterexample: with currents `[-1, 0, 0]` and threshold `0`, the
row maximum is `0`, so the code classifies the machine as off
(`|max| = 0 ≤ 0`), although the maximum of the absolute values is `1 > 0`;
the claimed equivalence with "max of the absolute values" is false. -/
theorem c2_abs_of_channels_fails :
    machine_off_row ["I1_A", "I2_A", "I3_A"] [-1, 0, 0] 0 = some true ∧
    ¬ (max |(-1 : ℚ)| (max |(0 : ℚ)| |(0 : ℚ)|) ≤ 0) := by
  refine ⟨by decide, by decide⟩

/-- C2 amended: when the three independent current channels are present
(the source dispatches on the presence of `I2_A`), a record is classified
off iff the absolute value of the *maximum* of the three readings is at
most the threshold — the absolute value is applied after the row maximum,
not to each channel; the spec's two all-positive examples hold as
stated. -/
theorem c2_machine_off_three_phase (cols : List String) (r : List ℚ) (thr i1 i2 i3 : ℚ)
    (h2 : cols.contains "I2_A" = true)
    (g1 : getCell cols r "I1_A" = some i1)
    (g2 : getCell cols r "I2_A" = some i2)
    (g3 : getCell cols r "I3_A" = some i3) :
    (machine_off_row cols r thr = some true ↔ |max i1 (max i2 i3)| ≤ thr) ∧
    machine_off_row ["I1_A", "I2_A", "I3_A"] [0.1, 0.2, 0.35] 0.3 = some false ∧
    machine_off_row ["I1_A", "I2_A", "I3_A"] [0.1, 0.2, 0.25] 0.3 = some true := by
  refine ⟨?_, ?_, ?_⟩
  · unfold machine_off_row
    rw [if_pos h2, g1, g2, g3]
    simp only [Option.some.injEq, decide_eq_true_eq]
  · have e : machine_off_row ["I1_A", "I2_A", "I3_A"] [0.1, 0.2, 0.35] 0.3 =
        some (decide (|max (0.1 : ℚ) (max 0.2 0.35)| ≤ 0.3)) := rfl
    have m1 : max (0.2 : ℚ) 0.35 = 0.35 := max_eq_right (by norm_num)
    have m2 : max (0.1 : ℚ) (0.35 : ℚ) = 0.35 := max_eq_right (by norm_num)
    have h' : ¬ (|max (0.1 : ℚ) (max 0.2 0.35)| ≤ 0.3) := by
      rw [m1, m2, abs_of_nonneg (by norm_num : (0 : ℚ) ≤ 0.35)]
      norm_num
    rw [e, decide_eq_false h']
  · have e : machine_off_row ["I1_A", "I2_A", "I3_A"] [0.1, 0.2, 0.25] 0.3 =
        some (decide (|max (0.1 : ℚ) (max 0.2 0.25)| ≤ 0.3)) := rfl
    have m1 : max (0.2 : ℚ) 0.25 = 0.25 := max_eq_right (by norm_num)
    have m2 : max (0.1 : ℚ) (0.25 : ℚ) = 0.25 := max_eq_right (by norm_num)
    have h' : |max (0.1 : ℚ) (max 0.2 0.25)| ≤ 0.3 := by
      rw [m1, m2, abs_of_nonneg (by norm_num : (0 : ℚ) ≤ 0.25)]
      norm_num
    rw [e, decide_eq_true h']

/-- Witness for the amended C2 on a concrete three-phase record. -/
theorem c2_machine_off_three_phase_witness :
    (["I1_A", "I2_A", "I3_A"] : List String).contains "I2_A" = true ∧
    getCell ["I1_A", "I2_A", "I3_A"] [1, 2, 3] "I1_A" = some 1 ∧
    (machine_off_row ["I1_A", "I2_A", "I3_A"] [1, 2, 3] 2 = some true ↔
      |max (1 : ℚ) (max 2 3)| ≤ 2) :=
  ⟨by decide, by decide,
    (c2_machine_off_three_phase ["I1_A", "I2_A", "I3_A"] [1, 2, 3] 2 1 2 3
      (by decide) (by decide) (by decide) (by decide)).1⟩

/-! ## Weekday feature (`custom_features.py`, `weekday`; `main.py`) -/

/-- `weekday(x)`: `dateutil.parser.parse(x).weekday() + 1`. Python's
`weekday()` is 0 for Monday; 1970-01-01 was a Thursday, so it equals
`(daysFromCivil + 3) mod 7` on the parsed date fields. Monday = 1 …
Sunday = 7. -/
def weekday (x : List Char) : ℤ :=
  (daysFromCivil (yearVal x) (monthVal x) (dayVal x) + 3) % 7 + 1

/-- The feature matrix tsfresh returns: window identifiers as the row
index plus named feature columns. -/
structure FeatureMatrix where
  ids : List (List Char)
  cols : List String
  rows : List (List ℚ)

/-- `main.py`: `feature_data.index.to_series().apply(weekday)` followed by
`feature_data.insert(loc=0, column='weekday', value=weekday_data)`. -/
def insert_weekday (fm : FeatureMatrix) : FeatureMatrix :=
  ⟨fm.ids, "weekday" :: fm.cols,
    (fm.ids.zip fm.rows).map (fun p => ((weekday p.1 : ℚ) :: p.2))⟩

/-! ## C8: the weekday column -/

/-- C8: the derived weekday maps Monday to 1 through Sunday to 7 —
checked on the full week 2017-10-02 (a Monday) to 2017-10-08 (a Sunday),
in particular 2017-10-02 yields 1 — and the orchestrator inserts the
derived weekday column as the first column of the feature matrix. -/
theorem c8_weekday_first_column (fm : FeatureMatrix) :
    weekday "2017-10-02T00:00:00.000+02".toList = 1 ∧
    weekday "2017-10-03T00:00:00.000+02".toList = 2 ∧
    weekday "2017-10-04T00:00:00.000+02".toList = 3 ∧
    weekday "2017-10-05T00:00:00.000+02".toList = 4 ∧
    weekday "2017-10-06T00:00:00.000+02".toList = 5 ∧
    weekday "2017-10-07T00:00:00.000+02".toList = 6 ∧
    weekday "2017-10-08T00:00:00.000+02".toList = 7 ∧
    (insert_weekday fm).cols = "weekday" :: fm.cols ∧
    (insert_weekday fm).cols.head? = some "weekday" :=
  ⟨by decide, by decide, by decide, by decide, by decide, by decide, by decide,
    rfl, rfl⟩
